import Mathlib

/-!
# Verification of the MentorMind chat widget client

Shallow embedding of the client-side chat widget (session identity,
transport client, sanitizer, conversation view and input controller)
together with proofs of the specified properties.

JavaScript strings are modelled as Lean `String`/`List Char`; nullable
values as `Option`; promise resolution/rejection as `Except String String`;
the DOM display surface as a list of rendered bubbles; the single-threaded
event loop as a step function over an explicit widget state, where an
`async` send is split into its synchronous prefix (up to the `await`) and
its settlement continuation.
-/

namespace MentorMind

/-- The no-break space character U+00A0, which the HTML fragment
serialization algorithm escapes in text nodes alongside the three
markup-significant characters. -/
def nbsp : Char := Char.ofNat 160

/-- How the browser serializes one character of a text node back to HTML
(the escaping performed by reading `innerHTML` after setting
`textContent`): `&`, `<`, `>` and no-break space become entities, every
other character is passed through. -/
def escChar (c : Char) : List Char :=
  if c = '&' then ['&', 'a', 'm', 'p', ';']
  else if c = '<' then ['&', 'l', 't', ';']
  else if c = '>' then ['&', 'g', 't', ';']
  else if c = nbsp then ['&', 'n', 'b', 's', 'p', ';']
  else [c]

/-- `sanitizeHTML(text)`: `div.textContent = text ?? ""; return div.innerHTML`.
A nullish argument is treated as the empty string; the text is re-read as
serialized (escaped) HTML. -/
def sanitizeHTML (text : Option String) : String :=
  String.mk ((text.getD "").data.flatMap escChar)

/-- The global-flag replacement `replace(/\n/g, "<br>")`: every newline
character becomes the four characters of a line-break element. -/
def replaceNewlines (l : List Char) : List Char :=
  l.flatMap fun c => if c = '\n' then ['<', 'b', 'r', '>'] else [c]

/-- `formatResponse(text)`: sanitize first, then replace newlines with
`<br>` elements. -/
def formatResponse (text : Option String) : String :=
  String.mk (replaceNewlines (sanitizeHTML text).data)

/-- Parsing an HTML text run back to text: entity references produced by
the serializer (`&amp;` `&lt;` `&gt;` `&nbsp;`) decode to their characters,
any other character stands for itself.  This is the "read it back as text"
direction of the round-trip property. -/
def decodeTC : List Char → List Char
  | [] => []
  | c :: r =>
    if c = '&' then
      if r.take 4 = ['a', 'm', 'p', ';'] then '&' :: decodeTC (r.drop 4)
      else if r.take 3 = ['l', 't', ';'] then '<' :: decodeTC (r.drop 3)
      else if r.take 3 = ['g', 't', ';'] then '>' :: decodeTC (r.drop 3)
      else if r.take 5 = ['n', 'b', 's', 'p', ';'] then nbsp :: decodeTC (r.drop 5)
      else c :: decodeTC r
    else c :: decodeTC r
termination_by l => l.length
decreasing_by
  all_goals simp only [List.length_cons, List.length_drop]
  all_goals omega

/-- String-level wrapper of `decodeTC`. -/
def decodeHTMLText (s : String) : String :=
  String.mk (decodeTC s.data)

-- Basic unfolding lemmas for `decodeTC`.

theorem decodeTC_nil : decodeTC [] = [] := by
  rw [decodeTC]

theorem decodeTC_cons_ne_amp (c : Char) (r : List Char) (h : c ≠ '&') :
    decodeTC (c :: r) = c :: decodeTC r := by
  rw [decodeTC]
  simp [h]

theorem decodeTC_amp (rest : List Char) :
    decodeTC ('&' :: 'a' :: 'm' :: 'p' :: ';' :: rest) = '&' :: decodeTC rest := by
  rw [decodeTC]
  simp [List.take_cons, List.drop]

theorem decodeTC_lt (rest : List Char) :
    decodeTC ('&' :: 'l' :: 't' :: ';' :: rest) = '<' :: decodeTC rest := by
  rw [decodeTC]
  simp [List.take_cons, List.drop]

theorem decodeTC_gt (rest : List Char) :
    decodeTC ('&' :: 'g' :: 't' :: ';' :: rest) = '>' :: decodeTC rest := by
  rw [decodeTC]
  simp [List.take_cons, List.drop]

theorem decodeTC_nbsp (rest : List Char) :
    decodeTC ('&' :: 'n' :: 'b' :: 's' :: 'p' :: ';' :: rest) = nbsp :: decodeTC rest := by
  rw [decodeTC]
  simp [List.take_cons, List.drop]

/-- Decoding undoes the escaping of a single character, whatever follows. -/
theorem decodeTC_escChar (c : Char) (rest : List Char) :
    decodeTC (escChar c ++ rest) = c :: decodeTC rest := by
  by_cases h1 : c = '&'
  · subst h1; simpa [escChar] using decodeTC_amp rest
  · by_cases h2 : c = '<'
    · subst h2; simpa [escChar] using decodeTC_lt rest
    · by_cases h3 : c = '>'
      · subst h3; simpa [escChar] using decodeTC_gt rest
      · by_cases h4 : c = nbsp
        · subst h4; simpa [escChar] using decodeTC_nbsp rest
        · simp only [escChar, if_neg h1, if_neg h2, if_neg h3, if_neg h4,
            List.singleton_append]
          exact decodeTC_cons_ne_amp c rest h1

/-- Escape-then-decode is the identity on character lists. -/
theorem decodeTC_bind_escChar (l : List Char) :
    decodeTC (l.flatMap escChar) = l := by
  induction l with
  | nil => simpa using decodeTC_nil
  | cons c t ih =>
    rw [List.flatMap_cons, decodeTC_escChar, ih]

/-- The escaping of one character never emits a `<` or a `>`. -/
theorem escChar_no_markup (c : Char) :
    '<' ∉ escChar c ∧ '>' ∉ escChar c := by
  by_cases h1 : c = '&'
  · subst h1; simp [escChar]
  · by_cases h2 : c = '<'
    · subst h2; simp [escChar, nbsp]
    · by_cases h3 : c = '>'
      · subst h3; simp [escChar, nbsp]
      · by_cases h4 : c = nbsp
        · subst h4; simp [escChar, nbsp]
        · simp [escChar, if_neg h1, if_neg h2, if_neg h3, if_neg h4]
          exact ⟨fun h => h2 h.symm, fun h => h3 h.symm⟩

/-! ## Session Identity Store -/

/-- JavaScript falsiness of a nullable string: `!sid` holds for `null` and
for the empty string. -/
def jsFalsy : Option String → Bool
  | none => true
  | some v => v = ""

/-- The module-level session-identifier initialization:
`sid = localStorage.getItem(SID_KEY); if (!sid) { sid = (crypto && crypto.randomUUID) ? crypto.randomUUID() : String(Date.now()); localStorage.setItem(SID_KEY, sid); }`.
`stored` is the value under the storage key (`none` when absent),
`secureRandom` whether `crypto.randomUUID` is available, `uuid` the token it
would produce and `now` the timestamp `Date.now()`.  Returns the resulting
`sid` together with the storage contents afterwards. -/
def getOrCreateSessionId (stored : Option String) (secureRandom : Bool)
    (uuid : String) (now : Nat) : String × Option String :=
  if jsFalsy stored then
    let sid := if secureRandom then uuid else toString now
    (sid, some sid)
  else
    (stored.getD "", stored)

/-! ## Transport Client -/

/-- The JSON body of a response, as far as the client inspects it: the two
optional string fields it reads. -/
structure ParsedBody where
  error : Option String
  response : Option String
  deriving Repr, DecidableEq

/-- An HTTP response as the client observes it: the status code and the
result of `res.json()` (`none` when the body is malformed/non-JSON and the
parse rejects, which the client swallows). -/
structure HttpResponse where
  status : Nat
  body : Option ParsedBody
  deriving Repr, DecidableEq

/-- `res.ok`: status in the inclusive range 200–299. -/
def resOk (status : Nat) : Bool := 200 ≤ status && status ≤ 299

/-- JavaScript truthiness of an optional string field access such as
`data.error`: an absent field (`undefined`) and the empty string are falsy. -/
def truthyField : Option String → Bool
  | none => false
  | some v => v ≠ ""

/-- The request payload `{ message: text, session_id: sid }`. -/
structure RequestPayload where
  message : String
  session_id : String
  deriving Repr, DecidableEq

/-- `sendMessage(text)`, modelled on the observed response: parse the body
(even on non-2xx, swallowing parse failure), then either throw
`new Error((data && data.error) ? data.error : "HTTP " + status)` on a
non-ok status, or return `(data && data.response) ? data.response : ""`.
Rejection is `Except.error`, resolution `Except.ok`. -/
def sendMessage (res : HttpResponse) : Except String String :=
  let data := res.body
  if !resOk res.status then
    let msg := match data with
      | some d =>
          if truthyField d.error then d.error.getD ""
          else "HTTP " ++ toString res.status
      | none => "HTTP " ++ toString res.status
    .error msg
  else
    match data with
    | some d => .ok (if truthyField d.response then d.response.getD "" else "")
    | none => .ok ""

/-- Spec-side restatement of the transport contract (for the refinement
theorem): reject exactly on non-2xx with the body's `error` field when that
field is present and non-empty, otherwise the generic `"HTTP <status>"`
string; resolve on 2xx to the `response` field or `""` when absent. -/
def sendMessageSpec (res : HttpResponse) : Except String String :=
  if 200 ≤ res.status ∧ res.status ≤ 299 then
    .ok ((res.body.bind ParsedBody.response).getD "")
  else
    .error
      (match res.body.bind ParsedBody.error with
       | some e => if e = "" then "HTTP " ++ toString res.status else e
       | none => "HTTP " ++ toString res.status)

/-! ## Conversation View -/

/-- One rendered chat bubble: the class attribute of its `div` and the
markup interpolated inside it. -/
structure Bubble where
  cls : String
  inner : String
  deriving Repr, DecidableEq

/-- `addUserBubble(text)`: append a user-styled bubble whose content is the
sanitized text (the smooth scroll to the bottom edge is a pure display
effect and has no observable state here). -/
def addUserBubble (chat : List Bubble) (text : Option String) : List Bubble :=
  chat ++ [⟨"user-message", sanitizeHTML text⟩]

/-- `addBotBubble(text, isError = false)`: append a bot-styled bubble
(class `"bot-message error"` when `isError`) whose content is the formatted
text. -/
def addBotBubble (chat : List Bubble) (text : Option String) (isError : Bool) :
    List Bubble :=
  chat ++ [⟨if isError then "bot-message error" else "bot-message", formatResponse text⟩]

/-! ## Input Controller -/

/-- The whitespace class of JavaScript `String.prototype.trim` (restricted
to the characters that can occur in this client): space, tab, newline,
carriage return, vertical tab, form feed and no-break space. -/
def isJsSpace (c : Char) : Bool :=
  c = ' ' || c = '\t' || c = '\n' || c = '\r' || c = '\x0b' || c = '\x0c' || c = nbsp

/-- `s.trim()`: strip leading and trailing whitespace. -/
def jsTrim (s : String) : String :=
  String.mk (((s.data.dropWhile isJsSpace).reverse.dropWhile isJsSpace).reverse)

/-- The greeting text shown on first load. -/
def greeting : String :=
  "Merhaba! Türk finansal mevzuatla ilgili sorunu yaz, yardımcı olayım."

/-- The observable state of the widget: the module-level session id, the
chat container's bubbles, the input field's value, the send button's
`disabled` flag, whether the input has been re-focused, the number of
`handleSend` invocations currently suspended at their `await`, and the log
of network requests issued so far. -/
structure WidgetState where
  sid : String
  chat : List Bubble
  inputVal : String
  sendDisabled : Bool
  focused : Bool
  pending : Nat
  requests : List RequestPayload
  deriving Repr, DecidableEq

/-- The synchronous prefix of `handleSend()` (up to the `await`): read and
trim the input (`(inputEl.value || "").trim()` agrees with trimming, since
`"" || ""` is `""`); on empty text return with nothing changed; otherwise
append the user bubble, clear the input, disable the send button and issue
the fetch carrying `{ message: text, session_id: sid }`. -/
def handleSendStart (s : WidgetState) : WidgetState :=
  let text := jsTrim s.inputVal
  if text = "" then s
  else
    { s with
      chat := addUserBubble s.chat (some text)
      inputVal := ""
      sendDisabled := true
      pending := s.pending + 1
      requests := s.requests ++ [⟨text, s.sid⟩] }

/-- The continuation of `handleSend()` after its `await sendMessage(text)`
settles: on resolution append the reply as a plain bot bubble; on rejection
append an error-styled bot bubble with
`"Error contacting the AI Advisor: " + (err.message || "request failed")`;
in both cases the `finally` block re-enables the send button and restores
input focus.  Every failure is caught here; none escapes the handler. -/
def handleSendSettle (s : WidgetState) (outcome : Except String String) :
    WidgetState :=
  let s1 :=
    match outcome with
    | .ok reply => { s with chat := addBotBubble s.chat (some reply) false }
    | .error msg =>
        let shown := "Error contacting the AI Advisor: " ++
          (if msg = "" then "request failed" else msg)
        { s with chat := addBotBubble s.chat (some shown) true }
  { s1 with sendDisabled := false, focused := true, pending := s.pending - 1 }

/-- `querySelector(".bot-message, .user-message")` finds something exactly
when some bubble's class list contains one of the two message class
tokens. -/
def hasMessageBubble (chat : List Bubble) : Bool :=
  chat.any fun b =>
    (b.cls.splitOn " ").contains "bot-message" || (b.cls.splitOn " ").contains "user-message"

instance : DecidableEq (Except String String) := fun x y =>
  match x, y with
  | .ok a, .ok b => if h : a = b then .isTrue (by rw [h]) else .isFalse (by simp [h])
  | .error a, .error b => if h : a = b then .isTrue (by rw [h]) else .isFalse (by simp [h])
  | .ok _, .error _ => .isFalse (by simp)
  | .error _, .ok _ => .isFalse (by simp)

/-- The events the event loop can deliver to the widget. -/
inductive Event where
  | click
  | keydown (key : String) (shift : Bool)
  | setInput (v : String)
  | settle (outcome : Except String String)
  | load
  deriving Repr, DecidableEq

/-- One turn of the single-threaded event loop.  A click on a disabled
button is never delivered by the browser, so the click path is guarded by
`sendDisabled`; the keydown listener calls `handleSend()` directly on Enter
without shift (after `preventDefault()`); `setInput` is the user editing
the input field; `settle` resumes the oldest suspended `handleSend` (only
meaningful when one is pending); `load` appends the greeting when no
message bubble exists yet. -/
def step (s : WidgetState) : Event → WidgetState
  | .click => if s.sendDisabled then s else handleSendStart s
  | .keydown key shift =>
      if key = "Enter" && !shift then handleSendStart s else s
  | .setInput v => { s with inputVal := v }
  | .settle outcome => if s.pending = 0 then s else handleSendSettle s outcome
  | .load =>
      if hasMessageBubble s.chat then s
      else { s with chat := addBotBubble s.chat (some greeting) false }

/-- The widget's state right after the script runs: empty chat, empty
input, button enabled, nothing pending. -/
def initState (sid : String) : WidgetState :=
  { sid := sid, chat := [], inputVal := "", sendDisabled := false,
    focused := false, pending := 0, requests := [] }

/-- Run a list of events from the initial state. -/
def run (sid : String) (events : List Event) : WidgetState :=
  events.foldl step (initState sid)

/-- A bubble whose content went through the Sanitizer: it is either the
escaped form of some text or the escape-then-break formatted form of some
text. -/
def sanitizedBubble (b : Bubble) : Prop :=
  ∃ t, b.inner = sanitizeHTML t ∨ b.inner = formatResponse t

/-! ## Helper lemmas -/

theorem newline_mem_escChar {c : Char} (h : '\n' ∈ escChar c) : c = '\n' := by
  by_cases h1 : c = '&'
  · subst h1; simp [escChar] at h
  · by_cases h2 : c = '<'
    · subst h2; simp [escChar, nbsp] at h
    · by_cases h3 : c = '>'
      · subst h3; simp [escChar, nbsp] at h
      · by_cases h4 : c = nbsp
        · subst h4; simp [escChar, nbsp] at h
        · simp only [escChar, if_neg h1, if_neg h2, if_neg h3, if_neg h4,
            List.mem_singleton] at h
          exact h.symm

theorem no_newline_flatMap {l : List Char} (h : '\n' ∉ l) :
    '\n' ∉ l.flatMap escChar := by
  intro hc
  rw [List.mem_flatMap] at hc
  obtain ⟨a, hal, ha⟩ := hc
  exact h (newline_mem_escChar ha ▸ hal)

theorem replaceNewlines_append (l1 l2 : List Char) :
    replaceNewlines (l1 ++ l2) = replaceNewlines l1 ++ replaceNewlines l2 := by
  simp [replaceNewlines]

theorem replaceNewlines_of_no_newline {l : List Char} (h : '\n' ∉ l) :
    replaceNewlines l = l := by
  induction l with
  | nil => rfl
  | cons c t ih =>
    have hc : ¬c = '\n' := fun e => h (e ▸ List.mem_cons_self c t)
    have h2 : '\n' ∉ t := fun hm => h (List.mem_cons_of_mem _ hm)
    show (c :: t).flatMap _ = _
    rw [List.flatMap_cons, if_neg hc, List.singleton_append]
    exact congrArg (c :: ·) (ih h2)

/-! ## The claims -/

/-- C5: for every input string `s` (including the empty string, strings of
markup characters and arbitrary Unicode), `escape` round-trips — reading the
escaped text back as document text recovers exactly `s` — and the escaped
output contains no structural markup character; a nullish argument is
treated as the empty string.  (`sanitizeHTML` is a total Lean function, so
it throws on no input by construction.) -/
theorem C5_escape_roundtrip (s : String) :
    decodeHTMLText (sanitizeHTML (some s)) = s ∧
    (∀ c ∈ (sanitizeHTML (some s)).data, c ≠ '<' ∧ c ≠ '>') ∧
    sanitizeHTML none = "" := by
  refine ⟨?_, ?_, rfl⟩
  · show String.mk (decodeTC (s.data.flatMap escChar)) = s
    rw [decodeTC_bind_escChar]
  · intro c hc
    have hc' : c ∈ s.data.flatMap escChar := hc
    rw [List.mem_flatMap] at hc'
    obtain ⟨a, -, ha⟩ := hc'
    exact ⟨fun e => (escChar_no_markup a).1 (e ▸ ha),
           fun e => (escChar_no_markup a).2 (e ▸ ha)⟩

/-- C6: `formatResponse` escapes first and only then replaces newline
characters by `<br>` elements, so for any two newline-free fragments the
formatted result is the escaped first fragment, one literal `<br>`, and the
escaped second fragment; the spec's instance is the case `a := "a"`,
`b := "b"`. -/
theorem C6_format_newline (a b : String) (ha : '\n' ∉ a.data) (hb : '\n' ∉ b.data) :
    formatResponse (some (a ++ "\n" ++ b)) =
      sanitizeHTML (some a) ++ "<br>" ++ sanitizeHTML (some b) := by
  have hdata : (a ++ "\n" ++ b).data = a.data ++ '\n' :: b.data := by
    simp [String.data_append]
  have hEa := replaceNewlines_of_no_newline (no_newline_flatMap ha)
  have hEb := replaceNewlines_of_no_newline (no_newline_flatMap hb)
  have hnl : escChar '\n' = ['\n'] := by decide
  apply String.ext
  show replaceNewlines ((a ++ "\n" ++ b).data.flatMap escChar) = _
  rw [hdata, List.flatMap_append, List.flatMap_cons, hnl,
    replaceNewlines_append, replaceNewlines_append, hEa, hEb]
  have hbr : replaceNewlines ['\n'] = ['<', 'b', 'r', '>'] := by decide
  rw [hbr]
  simp [String.data_append, sanitizeHTML, List.append_assoc]

/-- Witness for C6 at the spec's own instance `"a" ++ "\n" ++ "b"`. -/
theorem C6_witness :
    formatResponse (some ("a" ++ "\n" ++ "b")) =
      sanitizeHTML (some "a") ++ "<br>" ++ sanitizeHTML (some "b") :=
  C6_format_newline "a" "b" (by decide) (by decide)

theorem toDigitsCore_length_le (b : Nat) :
    ∀ (f n : Nat) (l : List Char), l.length ≤ (Nat.toDigitsCore b f n l).length := by
  intro f
  induction f with
  | zero => intro n l; simp [Nat.toDigitsCore]
  | succ f ih =>
    intro n l
    rw [Nat.toDigitsCore]
    split
    · simp
    · calc l.length ≤ (Nat.digitChar (n % b) :: l).length := by simp
        _ ≤ _ := ih _ _

/-- The decimal rendering of a natural number (the `String(Date.now())`
fallback token) is never the empty string. -/
theorem toString_nat_ne_empty (n : Nat) : toString n ≠ "" := by
  show Nat.repr n ≠ ""
  have h : Nat.toDigits 10 n ≠ [] := by
    rw [Nat.toDigits, Nat.toDigitsCore]
    split
    · simp
    · intro hc
      have hlen := toDigitsCore_length_le 10 n (n / 10) [Nat.digitChar (n % 10)]
      rw [hc] at hlen
      simp at hlen
  intro hc
  apply h
  have := congrArg String.data hc
  simpa [Nat.repr, List.asString] using this

/-- C3 (counterexample to the claim as stated): a 500 response whose body
parses as JSON and does carry the `error` field, with value `""`, is
rejected with the generic `"HTTP 500"` message rather than the field's
value. -/
theorem C3_counterexample :
    sendMessage ⟨500, some ⟨some "", none⟩⟩ = .error "HTTP 500" ∧
    (HttpResponse.body ⟨500, some ⟨some "", none⟩⟩).bind ParsedBody.error = some "" ∧
    ("HTTP 500" : String) ≠ "" := by
  refine ⟨by decide, rfl, by decide⟩

/-- C3 (amended): `sendMessage` rejects exactly on non-2xx status, with the
body's `error` field as message when that field is present *and non-empty*
(a JavaScript-truthy value), otherwise the generic `"HTTP <status>"`; on
2xx it resolves to the `response` field or `""` when absent; a
malformed/non-JSON body is treated as an empty parse result on both paths
(and the embedding is a total function — nothing is thrown). -/
theorem C3_transport_contract (res : HttpResponse) :
    sendMessage res = sendMessageSpec res := by
  rcases res with ⟨status, body⟩
  by_cases hok : 200 ≤ status ∧ status ≤ 299
  · have h1 : resOk status = true := by simp [resOk, hok.1, hok.2]
    rcases body with _ | ⟨err, resp⟩
    · simp [sendMessage, sendMessageSpec, h1, hok]
    · rcases resp with _ | v
      · simp [sendMessage, sendMessageSpec, h1, hok, truthyField]
      · by_cases hv : v = ""
        · subst hv; simp [sendMessage, sendMessageSpec, h1, hok, truthyField]
        · simp [sendMessage, sendMessageSpec, h1, hok, truthyField, hv]
  · have h1 : resOk status = false := by
      rw [resOk]
      rw [Decidable.not_and_iff_or_not] at hok
      rcases hok with h | h <;> simp [Nat.not_le.mp h, Nat.lt_iff_add_one_le]
    rcases body with _ | ⟨err, resp⟩
    · simp [sendMessage, sendMessageSpec, h1, hok]
    · rcases err with _ | e
      · simp [sendMessage, sendMessageSpec, h1, hok, truthyField]
      · by_cases he : e = ""
        · subst he; simp [sendMessage, sendMessageSpec, h1, hok, truthyField]
        · simp [sendMessage, sendMessageSpec, h1, hok, truthyField, he]

/-- C7 (counterexample to the claim as stated): when the stored value is
present but is the empty string, the call does not return it unchanged — it
generates a fresh token (the empty string is falsy, so `!sid` passes). -/
theorem C7_counterexample :
    (getOrCreateSessionId (some "") true "uuid-1" 0).1 = "uuid-1" ∧
    ("uuid-1" : String) ≠ "" := by
  refine ⟨rfl, by decide⟩

/-- C7 (amended): a stored *non-empty* value is returned unchanged with the
storage untouched; on an absent (or empty) stored value the generated token
is written back before being returned; and — because both generators
produce non-empty tokens — a second sequential call returns the identical
value and leaves storage unchanged, so the identifier is never regenerated
once created. -/
theorem C7_session_stable (stored : Option String) (secure1 secure2 : Bool)
    (u1 u2 : String) (n1 n2 : Nat) (hu1 : u1 ≠ "") :
    (∀ v, v ≠ "" → stored = some v →
      getOrCreateSessionId stored secure1 u1 n1 = (v, some v)) ∧
    (stored = none →
      (getOrCreateSessionId stored secure1 u1 n1).2
        = some (getOrCreateSessionId stored secure1 u1 n1).1) ∧
    (getOrCreateSessionId (getOrCreateSessionId stored secure1 u1 n1).2
        secure2 u2 n2).1 = (getOrCreateSessionId stored secure1 u1 n1).1 ∧
    (getOrCreateSessionId (getOrCreateSessionId stored secure1 u1 n1).2
        secure2 u2 n2).2 = (getOrCreateSessionId stored secure1 u1 n1).2 := by
  have htok : (if secure1 then u1 else toString n1) ≠ "" := by
    cases secure1 with
    | true => simpa using hu1
    | false => simpa using toString_nat_ne_empty n1
  refine ⟨?_, ?_, ?_⟩
  · intro v hv hstored
    subst hstored
    simp [getOrCreateSessionId, jsFalsy, hv]
  · intro hstored
    subst hstored
    simp [getOrCreateSessionId, jsFalsy]
  · rcases stored with _ | v
    · constructor <;>
        simp [getOrCreateSessionId, jsFalsy, htok]
    · by_cases hv : v = ""
      · subst hv
        constructor <;>
          simp [getOrCreateSessionId, jsFalsy, htok]
      · constructor <;>
          simp [getOrCreateSessionId, jsFalsy, hv]

/-- Witness for C7: both clauses discharged at a concrete instantiation
(absent storage, secure generator available). -/
theorem C7_witness :
    ("u1" : String) ≠ "" ∧
    ((∀ v, v ≠ "" → (none : Option String) = some v →
      getOrCreateSessionId none true "u1" 7 = (v, some v)) ∧
    ((none : Option String) = none →
      (getOrCreateSessionId none true "u1" 7).2
        = some (getOrCreateSessionId none true "u1" 7).1) ∧
    (getOrCreateSessionId (getOrCreateSessionId none true "u1" 7).2
        false "u2" 9).1 = (getOrCreateSessionId none true "u1" 7).1 ∧
    (getOrCreateSessionId (getOrCreateSessionId none true "u1" 7).2
        false "u2" 9).2 = (getOrCreateSessionId none true "u1" 7).2) :=
  ⟨by decide, C7_session_stable none true false "u1" "u2" 7 9 (by decide)⟩

theorem handleSendStart_of_empty {s : WidgetState} (h : jsTrim s.inputVal = "") :
    handleSendStart s = s := by
  rw [handleSendStart]
  simp [h]

theorem handleSendStart_of_nonempty {s : WidgetState} (h : jsTrim s.inputVal ≠ "") :
    handleSendStart s = { s with
      chat := addUserBubble s.chat (some (jsTrim s.inputVal))
      inputVal := ""
      sendDisabled := true
      pending := s.pending + 1
      requests := s.requests ++ [⟨jsTrim s.inputVal, s.sid⟩] } := by
  rw [handleSendStart]
  simp [h]

/-- C8: triggering send with whitespace-only (hence empty after trimming)
input is a silent no-op on both trigger paths: the whole widget state —
bubbles, input value, affordance, pending count and the request log — is
exactly what it was. -/
theorem C8_whitespace_noop (s : WidgetState) (h : jsTrim s.inputVal = "") :
    step s .click = s ∧ step s (.keydown "Enter" false) = s := by
  have hstart := handleSendStart_of_empty h
  constructor
  · by_cases hd : s.sendDisabled <;> simp [step, hd, hstart]
  · simp [step, hstart]

/-- Witness for C8: the spec's own instance, input `"   "`. -/
theorem C8_witness :
    jsTrim (step (initState "sess") (.setInput "   ")).inputVal = "" ∧
    step (step (initState "sess") (.setInput "   ")) .click
      = step (initState "sess") (.setInput "   ") :=
  ⟨by decide, (C8_whitespace_noop _ (by decide)).1⟩

/-- C9: whenever a pending send settles — resolution and rejection alike —
the `finally` path runs: the send affordance is re-enabled and input focus
is restored.  The settlement handler is a total function of the outcome
(the `catch` consumes every rejection), so no failure escapes the
controller. -/
theorem C9_settle_cleanup (s : WidgetState) (out : Except String String)
    (hp : 0 < s.pending) :
    (step s (.settle out)).sendDisabled = false ∧
    (step s (.settle out)).focused = true := by
  have h0 : ¬s.pending = 0 := Nat.pos_iff_ne_zero.mp hp
  cases out <;> simp [step, h0, handleSendSettle]

/-- Witness for C9 at a concrete pending state and a concrete outcome. -/
theorem C9_witness :
    0 < (run "sess" [Event.setInput "hello", Event.click]).pending ∧
    (step (run "sess" [Event.setInput "hello", Event.click])
        (.settle (.ok "hi"))).sendDisabled = false :=
  ⟨by decide, (C9_settle_cleanup _ (.ok "hi") (by decide)).1⟩

/-- C10: a send triggered on non-empty trimmed text clears the input field
at initiation — in the same synchronous step that appends the user bubble
and puts the request in flight — and settling the request (either outcome)
leaves the field empty: focus is restored, the typed text is not. -/
theorem C10_input_cleared (s : WidgetState) (h : jsTrim s.inputVal ≠ "") :
    (handleSendStart s).inputVal = "" ∧
    (handleSendStart s).chat = addUserBubble s.chat (some (jsTrim s.inputVal)) ∧
    0 < (handleSendStart s).pending ∧
    (∀ out, (step (handleSendStart s) (.settle out)).inputVal = "" ∧
            (step (handleSendStart s) (.settle out)).focused = true) := by
  have key := handleSendStart_of_nonempty h
  refine ⟨by rw [key], by rw [key], by rw [key]; simp, ?_⟩
  intro out
  rw [key]
  cases out <;> simp [step, handleSendSettle]

/-- Witness for C10 at input `" hi "`. -/
theorem C10_witness :
    jsTrim (step (initState "sess") (.setInput " hi ")).inputVal ≠ "" ∧
    (handleSendStart (step (initState "sess") (.setInput " hi "))).inputVal = "" :=
  ⟨by decide, (C10_input_cleared _ (by decide)).1⟩

/-- C1 (counterexample to the claim as stated): from idle the user sends
"hi"; while that request is pending (`pending` is positive and the
affordance is disabled) the user types "again" and presses Enter without
shift.  The keydown listener calls `handleSend()` without consulting the
disabled affordance, so a second request is issued and a second user bubble
is appended while the first send is still in flight. -/
theorem C1_counterexample :
    0 < (run "sess" [Event.setInput "hi", Event.keydown "Enter" false,
        Event.setInput "again"]).pending ∧
    (run "sess" [Event.setInput "hi", Event.keydown "Enter" false,
        Event.setInput "again"]).sendDisabled = true ∧
    (run "sess" [Event.setInput "hi", Event.keydown "Enter" false,
        Event.setInput "again"]).requests.length = 1 ∧
    (run "sess" [Event.setInput "hi", Event.keydown "Enter" false,
        Event.setInput "again"]).chat.length = 1 ∧
    (run "sess" [Event.setInput "hi", Event.keydown "Enter" false,
        Event.setInput "again", Event.keydown "Enter" false]).requests.length = 2 ∧
    (run "sess" [Event.setInput "hi", Event.keydown "Enter" false,
        Event.setInput "again", Event.keydown "Enter" false]).chat.length = 2 := by
  refine ⟨by decide, by decide, by decide, by decide, by decide, by decide⟩

/-- C1 (amended): initiating a send puts the widget in Pending (request in
flight, affordance disabled, input cleared), and while it is pending — as
long as the input has not been edited again — neither trigger path starts a
new request or appends a bubble: the click path because a disabled button
receives no click, the Enter path only because the input was cleared at
initiation.  (The affordance alone does not guard the Enter path: text
typed during Pending lets Enter start a concurrent send, as the
counterexample shows.) -/
theorem C1_no_reentry_while_pending (s : WidgetState)
    (h : jsTrim s.inputVal ≠ "") :
    0 < (handleSendStart s).pending ∧
    (handleSendStart s).sendDisabled = true ∧
    step (handleSendStart s) .click = handleSendStart s ∧
    step (handleSendStart s) (.keydown "Enter" false) = handleSendStart s := by
  have key := handleSendStart_of_nonempty h
  have hempty : jsTrim (handleSendStart s).inputVal = "" := by
    rw [key]
    rfl
  refine ⟨by rw [key]; simp, by rw [key], ?_, ?_⟩
  · have hd : (handleSendStart s).sendDisabled = true := by rw [key]
    simp [step, hd]
  · simp [step, handleSendStart_of_empty hempty]

/-- Witness for C1 (amended) at input `"hi"`. -/
theorem C1_amended_witness :
    jsTrim (step (initState "sess") (.setInput "hi")).inputVal ≠ "" ∧
    step (handleSendStart (step (initState "sess") (.setInput "hi"))) .click
      = handleSendStart (step (initState "sess") (.setInput "hi")) :=
  ⟨by decide, (C1_no_reentry_while_pending _ (by decide)).2.2.1⟩

/-- C4 (counterexample to the claim as stated): with a send pending, a
transport rejection with message "HTTP 500" appends an error-styled bubble
whose text is the message *prefixed* by the fixed notice
"Error contacting the AI Advisor: " — not a bubble whose text is the bare
message. -/
theorem C4_counterexample :
    (step (run "sess" [Event.setInput "boom", Event.click])
        (.settle (.error "HTTP 500"))).chat.getLast?
      = some ⟨"bot-message error",
          formatResponse (some "Error contacting the AI Advisor: HTTP 500")⟩ ∧
    formatResponse (some "Error contacting the AI Advisor: HTTP 500")
      ≠ formatResponse (some "HTTP 500") ∧
    formatResponse (some "Error contacting the AI Advisor: HTTP 500")
      ≠ sanitizeHTML (some "HTTP 500") := by
  refine ⟨by decide, by decide, by decide⟩

/-- C4 (amended): in Pending, on transport failure with non-empty message
`m`, the controller appends exactly one bot bubble, rendered with the error
style, whose text is the fixed notice "Error contacting the AI Advisor: "
followed by `m`; in particular for `m = "HTTP 500"` the rendered bubble
contains "HTTP 500", and the affordance is re-enabled afterwards. -/
theorem C4_error_bubble (s : WidgetState) (m : String)
    (hp : 0 < s.pending) (hm : m ≠ "") :
    (step s (.settle (.error m))).chat
      = s.chat ++ [⟨"bot-message error",
          formatResponse (some ("Error contacting the AI Advisor: " ++ m))⟩] ∧
    (step s (.settle (.error m))).sendDisabled = false ∧
    (m = "HTTP 500" →
      ("HTTP 500" : String).data <:+:
        (formatResponse (some ("Error contacting the AI Advisor: " ++ m))).data) := by
  have h0 : ¬s.pending = 0 := Nat.pos_iff_ne_zero.mp hp
  refine ⟨?_, by simp [step, h0, handleSendSettle], ?_⟩
  · simp [step, h0, handleSendSettle, hm, addBotBubble]
  · intro hmm
    subst hmm
    decide

/-- Witness for C4 (amended) with message "HTTP 500" and a real pending
state. -/
theorem C4_witness :
    0 < (run "sess" [Event.setInput "x", Event.click]).pending ∧
    ("HTTP 500" : String) ≠ "" ∧
    (step (run "sess" [Event.setInput "x", Event.click])
        (.settle (.error "HTTP 500"))).chat
      = (run "sess" [Event.setInput "x", Event.click]).chat
          ++ [⟨"bot-message error",
              formatResponse (some ("Error contacting the AI Advisor: " ++ "HTTP 500"))⟩] :=
  ⟨by decide, by decide, (C4_error_bubble _ "HTTP 500" (by decide) (by decide)).1⟩

theorem sanitized_addUserBubble {chat : List Bubble} (t : Option String)
    (hchat : ∀ b ∈ chat, sanitizedBubble b) :
    ∀ b ∈ addUserBubble chat t, sanitizedBubble b := by
  intro b hb
  rw [addUserBubble, List.mem_append, List.mem_singleton] at hb
  rcases hb with hb | hb
  · exact hchat b hb
  · exact ⟨t, Or.inl (by rw [hb])⟩

theorem sanitized_addBotBubble {chat : List Bubble} (t : Option String)
    (isError : Bool) (hchat : ∀ b ∈ chat, sanitizedBubble b) :
    ∀ b ∈ addBotBubble chat t isError, sanitizedBubble b := by
  intro b hb
  rw [addBotBubble, List.mem_append, List.mem_singleton] at hb
  rcases hb with hb | hb
  · exact hchat b hb
  · exact ⟨t, Or.inr (by rw [hb])⟩

theorem handleSendStart_sanitized {s : WidgetState}
    (hchat : ∀ b ∈ s.chat, sanitizedBubble b) :
    ∀ b ∈ (handleSendStart s).chat, sanitizedBubble b := by
  by_cases h : jsTrim s.inputVal = ""
  · rw [handleSendStart_of_empty h]
    exact hchat
  · rw [handleSendStart_of_nonempty h]
    exact sanitized_addUserBubble _ hchat

theorem handleSendSettle_sanitized {s : WidgetState}
    (out : Except String String) (hchat : ∀ b ∈ s.chat, sanitizedBubble b) :
    ∀ b ∈ (handleSendSettle s out).chat, sanitizedBubble b := by
  cases out with
  | ok r => exact sanitized_addBotBubble (some r) false hchat
  | error m => exact sanitized_addBotBubble _ true hchat

theorem step_sanitized (s : WidgetState) (e : Event)
    (hchat : ∀ b ∈ s.chat, sanitizedBubble b) :
    ∀ b ∈ (step s e).chat, sanitizedBubble b := by
  cases e with
  | click =>
    by_cases hd : s.sendDisabled
    · simpa [step, hd] using hchat
    · simpa [step, hd] using handleSendStart_sanitized hchat
  | keydown key shift =>
    by_cases hk : key = "Enter" ∧ shift = false
    · obtain ⟨h1, h2⟩ := hk
      subst h1; subst h2
      simpa [step] using handleSendStart_sanitized hchat
    · have hcond : ¬((key = "Enter" && !shift) = true) := by
        simp only [Bool.and_eq_true, decide_eq_true_eq, Bool.not_eq_true']
        rintro ⟨h1, h2⟩
        exact hk ⟨h1, h2⟩
      simpa [step, hcond] using hchat
  | setInput v => simpa [step] using hchat
  | settle out =>
    by_cases h0 : s.pending = 0
    · simpa [step, h0] using hchat
    · simpa [step, h0] using handleSendSettle_sanitized out hchat
  | load =>
    by_cases hm : hasMessageBubble s.chat
    · simpa [step, hm] using hchat
    · simpa [step, hm] using sanitized_addBotBubble (some greeting) false hchat

theorem foldl_step_sanitized (events : List Event) :
    ∀ s : WidgetState, (∀ b ∈ s.chat, sanitizedBubble b) →
      ∀ b ∈ (events.foldl step s).chat, sanitizedBubble b := by
  induction events with
  | nil => intro s hs; simpa using hs
  | cons e t ih =>
    intro s hs
    exact ih (step s e) (step_sanitized s e hs)

/-- C2: along every event trace from the initial (empty) display, every
bubble in the conversation display has content that passed through the
Sanitizer: it is `sanitizeHTML` of some text (user bubbles) or
`formatResponse` of some text (bot bubbles — including the greeting and the
error bubbles built from network-layer failure messages, which reach the
display only through `addBotBubble` and hence through `formatResponse`).
No code path inserts message text unescaped. -/
theorem C2_all_bubbles_sanitized (sid : String) (events : List Event)
    (b : Bubble) (hb : b ∈ (run sid events).chat) : sanitizedBubble b :=
  foldl_step_sanitized events (initState sid) (by simp [initState]) b hb

/-- Witness for C2: the greeting bubble of the trace `[load]` is
sanitizer-produced. -/
theorem C2_witness :
    (⟨"bot-message", formatResponse (some greeting)⟩ : Bubble)
      ∈ (run "sess" [Event.load]).chat ∧
    sanitizedBubble ⟨"bot-message", formatResponse (some greeting)⟩ :=
  ⟨by decide, C2_all_bubbles_sanitized "sess" [Event.load] _ (by decide)⟩

end MentorMind
